import Mathlib

/-!
Verification development for the WarframeMarketAnalysys repository
(two Python scripts: `WarframeMarketAnalysys.py`, the analyser, and
`WarframeMarketDataCollector.py`, the collector).

Shallow embedding conventions:
* durations (delays) are modelled as rationals (`ℚ`); the source uses
  the constants 0.1, 30.0, 60, 1 whose doubling and `min`/`max`
  arithmetic is exact, so no floating-point behaviour is lost;
* JSON values are modelled by the inductive `JVal`;
* network interaction is modelled by an oracle: a function from the
  attempt index to the response the server gives on that attempt;
* functions of the source that may not terminate are given a fuel
  parameter; a result of `Option.none` at every fuel means the source
  function never returns on that oracle;
* a Python function that may raise an uncaught exception is modelled
  with result type `Option _`, `Option.none` standing for the raise.
-/

/-! ### JSON value model -/

/-- A JSON value as produced by `json.load` / `response.json()`. Numbers
are modelled as integers (the fields the scripts touch — `platinum`,
`online` — are integral or boolean). -/
inductive JVal where
  | null
  | bool (b : Bool)
  | num (n : Int)
  | str (s : String)
  | arr (xs : List JVal)
  | obj (fields : List (String × JVal))

/-- Python truthiness (`if data`, `if order["user"]["online"]`) on a JSON
value: `None`, `False`, `0`, `""`, `[]`, `{}` are falsy. -/
def pyTruthy : JVal → Bool
  | .null => false
  | .bool b => b
  | .num n => n != 0
  | .str s => !(s == "")
  | .arr xs => !xs.isEmpty
  | .obj fs => !fs.isEmpty

/-- Python `k in v` for a string key `k`: key membership on a dict,
substring test on a string, element membership on a list (an element
equals the string `k` only when it is that string), and a `TypeError`
(modelled `Option.none`) on `None`, booleans and numbers. -/
def pyContainsKey (k : String) : JVal → Option Bool
  | .obj fs => some (fs.any (fun p => p.1 == k))
  | .str s => some (decide (2 ≤ (s.splitOn k).length))
  | .arr xs => some (xs.any (fun x => match x with | .str s => s == k | _ => false))
  | _ => Option.none

/-- Python `v[k]` for a string key `k`: dict lookup; everything else
raises (`TypeError`), modelled `Option.none`. -/
def pySubscript : JVal → String → Option JVal
  | .obj fs, k => List.lookup k fs
  | _, _ => Option.none

/-! ### Constants of `WarframeMarketAnalysys.py` (lines 49–51) -/

/-- `INITIAL_DELAY = 0.1` -/
def INITIAL_DELAY : ℚ := 1 / 10

/-- `MAX_DELAY = 30.0` -/
def MAX_DELAY : ℚ := 30

/-- `CONCURRENT_REQUESTS = 5` -/
def CONCURRENT_REQUESTS : ℕ := 5

/-! ### Backoff step of `fetch_data` (`WarframeMarketAnalysys.py` lines 62–70) -/

/-- What `fetch_data` does next after catching a 429
(`aiohttp.ClientResponseError` with `e.status == 429`). -/
inductive RLAction where
  | retryWith (nextDelay : ℚ)
  | cooldownThenRetry (pause : ℚ) (nextDelay : ℚ)
deriving DecidableEq

/-- Lines 64–70 of `WarframeMarketAnalysys.py`: on a 429, if
`current_delay < MAX_DELAY` the call retries with
`min(current_delay * 2, MAX_DELAY)`; otherwise it sleeps 60 seconds and
retries with `INITIAL_DELAY`. The server's `Retry-After` hint is never
read on this path. -/
def onRateLimited (d : ℚ) : RLAction :=
  if d < MAX_DELAY then .retryWith (min (d * 2) MAX_DELAY)
  else .cooldownThenRetry 60 INITIAL_DELAY

/-- The delay the next attempt is invoked with, regardless of whether a
cooldown pause precedes it. -/
def nextDelayVal (d : ℚ) : ℚ :=
  match onRateLimited d with
  | .retryWith d2 => d2
  | .cooldownThenRetry _ d2 => d2

/-- The backoff policy as the specification words it:
`min(max(currentDelay * 2, serverHint), MAX_DELAY)`. Stated only to be
compared with the policy the source implements. -/
def specNextDelay (d h : ℚ) : ℚ := min (max (d * 2) h) MAX_DELAY

/-! ### `fetch_data` (`WarframeMarketAnalysys.py` lines 53–76) -/

/-- One server response as seen by one attempt of `fetch_data`:
a 2xx with a JSON body, a non-2xx HTTP status (`raise_for_status`
raises `ClientResponseError`), or a transport / timeout / JSON-decode
error (the `except` on line 74). -/
inductive Response where
  | success (body : JVal)
  | httpError (status : ℕ)
  | netError

/-- `fetch_data(session, url, current_delay)`, driven by an oracle that
gives the response of each successive attempt. The first argument of
the recursion is fuel: `Option.none` means the call has not returned
within that many attempts. The inner value is the Python return value:
`some body` on success, `Option.none` (Python `None`) on a non-429 HTTP
error or a transport/decode error. A 429 always recurses — with the
doubled-and-capped delay below `MAX_DELAY` (line 66), after a 60-second
pause with `INITIAL_DELAY` at the ceiling (lines 69–70). -/
def fetchData (oracle : ℕ → Response) : ℕ → ℕ → ℚ → Option (Option JVal)
  | 0, _, _ => Option.none
  | fuel + 1, attempt, d =>
    match oracle attempt with
    | .success v => some (some v)
    | .httpError s =>
      if s = 429 then
        match onRateLimited d with
        | .retryWith d2 => fetchData oracle fuel (attempt + 1) d2
        | .cooldownThenRetry _ d2 => fetchData oracle fuel (attempt + 1) d2
      else some Option.none
    | .netError => some Option.none

/-- The oracle of a server that answers 429 to every attempt. -/
def all429 : ℕ → Response := fun _ => .httpError 429

theorem fetchData_all429_none :
    ∀ (fuel attempt : ℕ) (d : ℚ), fetchData all429 fuel attempt d = Option.none := by
  intro fuel
  induction fuel with
  | zero => intro attempt d; rfl
  | succ n ih =>
    intro attempt d
    show fetchData all429 (n + 1) attempt d = Option.none
    unfold fetchData
    simp only [all429]
    rw [if_pos trivial]
    cases h : onRateLimited d with
    | retryWith d2 => exact ih (attempt + 1) d2
    | cooldownThenRetry p d2 => exact ih (attempt + 1) d2

/-! ### `fetch_item_data` (`WarframeMarketDataCollector.py` lines 45–77) -/

/-- Default parameters of `fetch_item_data`: `retries=5`, `initial_delay=1`,
`max_delay=60` (line 45). All call sites use the defaults. -/
def COLLECTOR_RETRIES : ℕ := 5

def COLLECTOR_INITIAL_DELAY : ℚ := 1

def COLLECTOR_MAX_DELAY : ℚ := 60

/-- What one iteration of the `for attempt in range(retries)` loop body
observes: a 429 status (line 51), a 2xx whose body parses and from which
`data.get("payload", {}).get("item")` is extracted (line 60; the carried
value is that extracted `item_data`, possibly Python `None`), an
`aiohttp.ClientError` (line 65 — this also covers non-2xx statuses,
since `raise_for_status` raises a subclass of `ClientError`), a
`json.JSONDecodeError` (line 69), or a `KeyError`/`TypeError` shape
error (line 73). -/
inductive AttemptOutcome where
  | rateLimited (retryAfter : ℕ)
  | ok (item : Option JVal)
  | clientError
  | decodeError
  | shapeError

/-- The retry loop of `fetch_item_data`, driven by an oracle giving the
outcome of each attempt. Arguments: attempts remaining, attempts already
made, current `delay`. Returns the Python return value together with the
number of attempts performed. On 429 the delay is updated to
`min(delay * 2, max_delay)` and the loop continues (lines 52–56); on
`ClientError`/`JSONDecodeError` likewise (lines 65–72); on a shape error
the function returns `None` at once (lines 73–75); an `ok` outcome
returns the extracted item (line 64, possibly `None`); an exhausted loop
returns `None` (line 77). -/
def fetchItemDataAux (oracle : ℕ → AttemptOutcome) :
    ℕ → ℕ → ℚ → Option JVal × ℕ
  | 0, used, _ => (Option.none, used)
  | rem + 1, used, delay =>
    match oracle used with
    | .rateLimited _ =>
        fetchItemDataAux oracle rem (used + 1) (min (delay * 2) COLLECTOR_MAX_DELAY)
    | .ok item => (item, used + 1)
    | .clientError =>
        fetchItemDataAux oracle rem (used + 1) (min (delay * 2) COLLECTOR_MAX_DELAY)
    | .decodeError =>
        fetchItemDataAux oracle rem (used + 1) (min (delay * 2) COLLECTOR_MAX_DELAY)
    | .shapeError => (Option.none, used + 1)

/-- `fetch_item_data(session, item_url_name)` with the default
parameters. -/
def fetchItemData (oracle : ℕ → AttemptOutcome) : Option JVal × ℕ :=
  fetchItemDataAux oracle COLLECTOR_RETRIES 0 COLLECTOR_INITIAL_DELAY

theorem fetchItemDataAux_attempts_le (oracle : ℕ → AttemptOutcome) :
    ∀ (rem used : ℕ) (d : ℚ), (fetchItemDataAux oracle rem used d).2 ≤ used + rem := by
  intro rem
  induction rem with
  | zero => intro used d; simp [fetchItemDataAux]
  | succ n ih =>
    intro used d
    unfold fetchItemDataAux
    cases oracle used with
    | rateLimited r =>
        exact le_trans (ih (used + 1) _) (by omega)
    | ok item => simp
    | clientError => exact le_trans (ih (used + 1) _) (by omega)
    | decodeError => exact le_trans (ih (used + 1) _) (by omega)
    | shapeError => simp

/-! ### Dispatch-and-retry section of `main` (`WarframeMarketAnalysys.py` lines 167–209)

The tasks built on line 171 are modelled by a behaviour function
`beh : ℕ → ℕ → Option P`: `beh i k` is the value task `i` (its index in
`all_tasks`) would produce on its `k`-th invocation — `some payload`
when `process_item_data` returns a result, `Option.none` when it
returns `None`. Payloads are opaque to this section (they are only
appended and counted), so `P` is an arbitrary type. Only `beh i 0` is
ever consulted: the round-0 gather on line 173 awaits each coroutine
once, and no later attempt to run a task can get that far (see
`mainRun`). -/

/-- `[i for i, result in enumerate(results) if result is None]`
(line 180). -/
def failedPositionsAux {P : Type} : List (Option P) → ℕ → List ℕ
  | [], _ => []
  | Option.none :: rest, j => j :: failedPositionsAux rest (j + 1)
  | some _ :: rest, j => failedPositionsAux rest (j + 1)

def failedPositions {P : Type} (results : List (Option P)) : List ℕ :=
  failedPositionsAux results 0

/-- How the dispatch-and-retry section of `main` ends: `completed`
means control reached line 191 with the final `filtered_results` (the
output file is then written); `crashed` means an exception propagated
to the generic `except Exception` handler on line 207, which logs a
generic unexpected-error message and ends the run without writing the
output file and without reporting any per-key failure. -/
inductive RunOutcome (P : Type) where
  | completed (filtered : List P)
  | crashed

/-- Lines 167–189 of `main`: every task is dispatched once via
`tqdm_asyncio.gather` (line 173; task `i` yields `beh i 0`) and the
successes are collected into `filtered_results` (line 175). The
`while processed_items_count < total_items` loop (line 179) then either
breaks at once — when no entry of `results` is `None` (lines 180–182) —
or reaches line 187, whose call
`asyncio.gather(*new_tasks, desc=..., total=...)` deterministically
raises `TypeError` (`asyncio.gather` accepts no `desc`/`total` keyword
arguments); independently of that, the elements of `new_tasks` are
coroutine objects already awaited by the round-0 gather, so re-awaiting
any of them raises `RuntimeError`. Either exception propagates to the
handler on line 207, so the loop body never completes an iteration: a
run either completes after round 0 or crashes. (Line 186's further
slip — indexing `all_tasks` with failure positions of the current
`results` list — sits on this unreachable path.) `total` is
`total_items`, with `all_tasks = [0, ..., total-1]`. -/
def mainRun {P : Type} (beh : ℕ → ℕ → Option P) (total : ℕ) : RunOutcome P :=
  if (((List.range total).map (fun i => beh i 0)).filterMap id).length < total then
    if failedPositions ((List.range total).map (fun i => beh i 0)) = [] then
      RunOutcome.completed (((List.range total).map (fun i => beh i 0)).filterMap id)
    else RunOutcome.crashed
  else RunOutcome.completed (((List.range total).map (fun i => beh i 0)).filterMap id)

/-! ### Cache load at startup (`WarframeMarketAnalysys.py` lines 34–42) -/

/-- The possible contents of the cache store file at startup:
absent; present but its bytes are not valid UTF-8 (reading the
text-mode file raises `UnicodeDecodeError`); present, decodable text
that is not valid JSON (`json.load` raises `json.JSONDecodeError`);
or a parsed JSON object, as an association list of entries. -/
inductive StoreContent where
  | absent
  | invalidUtf8
  | notJson
  | parsed (entries : List (String × JVal))

/-- Lines 34–42: `cache = {}`; if the file exists, `json.load` it,
catching only `json.JSONDecodeError` (reset to `{}`). A
`UnicodeDecodeError` raised while the text-mode file is read and
decoded is not a subclass of `json.JSONDecodeError`, so it escapes the
`except` clause; this top-level module code has no enclosing handler,
so the process dies — modelled as `Option.none`. -/
def loadCache : StoreContent → Option (List (String × JVal))
  | .absent => some []
  | .invalidUtf8 => Option.none
  | .notJson => some []
  | .parsed entries => some entries

/-! ### `get_item_orders` (`WarframeMarketAnalysys.py` lines 78–91) -/

/-- Result of one `get_item_orders` call: the Python return value
(`some orders` or `None`), the number of `fetch_data` invocations it
made, and the cache after the call. -/
structure OrdersCall where
  result : Option JVal
  netCalls : ℕ
  cacheAfter : List (String × JVal)

/-- `get_item_orders(session, item_url_name)`. `netResp` is what the
single possible `fetch_data` call would return (line 83). Line 79
consults the cache first and returns the cached value with no network
call. Otherwise the guard of line 84 (`data and "payload" in data and
"orders" in data["payload"]`, with Python short-circuiting and
truthiness) decides between storing `data["payload"]["orders"]` in the
cache and returning it (lines 85–88) and returning `None` (line 91).
The outer `Option` is `Option.none` when the guard raises `TypeError`
(a truthy non-container `data`, etc.); the flush of the cache file
(lines 86–87) has no observable effect in this model. -/
def getItemOrders (cache : List (String × JVal)) (key : String)
    (netResp : Option JVal) : Option OrdersCall :=
  match List.lookup key cache with
  | some v => some ⟨some v, 0, cache⟩
  | Option.none =>
    match netResp with
    | Option.none => some ⟨Option.none, 1, cache⟩
    | some data =>
      if pyTruthy data then
        match pyContainsKey "payload" data with
        | Option.none => Option.none
        | some false => some ⟨Option.none, 1, cache⟩
        | some true =>
          match pySubscript data "payload" with
          | Option.none => Option.none
          | some payload =>
            match pyContainsKey "orders" payload with
            | Option.none => Option.none
            | some false => some ⟨Option.none, 1, cache⟩
            | some true =>
              match pySubscript payload "orders" with
              | Option.none => Option.none
              | some orders =>
                  some ⟨some orders, 1, cache ++ [(key, orders)]⟩
      else some ⟨Option.none, 1, cache⟩

/-! ### `get_online_orders` (`WarframeMarketAnalysys.py` lines 93–103) -/

/-- The `for order in orders` loop (lines 97–102): an order with
`"user" in order and "online" in order["user"]` and a truthy
`order["user"]["online"]` is appended; an order failing the membership
test is logged and skipped; a `TypeError` raised by the membership test
or the subscripts (e.g. `order["user"]` is `None`) propagates, modelled
`Option.none`. -/
def onlineOrdersLoop : List JVal → Option (List JVal)
  | [] => some []
  | o :: rest =>
    match pyContainsKey "user" o with
    | Option.none => Option.none
    | some false => onlineOrdersLoop rest
    | some true =>
      match pySubscript o "user" with
      | Option.none => Option.none
      | some u =>
        match pyContainsKey "online" u with
        | Option.none => Option.none
        | some false => onlineOrdersLoop rest
        | some true =>
          match pySubscript u "online" with
          | Option.none => Option.none
          | some ov =>
            if pyTruthy ov then
              match onlineOrdersLoop rest with
              | Option.none => Option.none
              | some tail => some (o :: tail)
            else onlineOrdersLoop rest

/-- `get_online_orders(orders)`: `None` yields `[]` (lines 94–95),
otherwise the filtering loop runs. -/
def getOnlineOrders : Option (List JVal) → Option (List JVal)
  | Option.none => some []
  | some orders => onlineOrdersLoop orders

/-! ### Semaphore admission model

`WarframeMarketAnalysys.py` line 55 executes
`async with asyncio.Semaphore(CONCURRENT_REQUESTS):` — the semaphore is
constructed inside `fetch_data`, so every invocation acquires a permit
of its own fresh semaphore. `WarframeMarketDataCollector.py` lines
100–104 construct one semaphore once and every `limited_fetch` acquires
that shared one. A snapshot of concurrently in-flight calls is a
duplicate-free list of call identifiers; it is admissible for a permit
assignment `semOf` (which semaphore each call acquires) and capacity
`cap` when no semaphore has more than `cap` of the in-flight calls
holding its permits — exactly the safety guarantee
`asyncio.Semaphore(cap)` gives per semaphore object. -/

def admissible (semOf : ℕ → ℕ) (cap : ℕ) (inflight : List ℕ) : Prop :=
  inflight.Nodup ∧
    ∀ s ∈ inflight.map semOf, (inflight.filter (fun c => semOf c = s)).length ≤ cap

instance (semOf : ℕ → ℕ) (cap : ℕ) (inflight : List ℕ) :
    Decidable (admissible semOf cap inflight) := by
  unfold admissible
  infer_instance

/-- `fetch_data`'s permit assignment: call `c` acquires the semaphore it
itself constructs on line 55, distinct for every call. -/
def fetchDataSemOf : ℕ → ℕ := fun c => c

/-- `limited_fetch`'s permit assignment: every call acquires the single
shared semaphore of line 100. -/
def sharedSemOf : ℕ → ℕ := fun _ => 0

/-- A single shared semaphore of capacity `cap` really does bound the
number of admissible in-flight calls by `cap` — the discipline the
collector's `limited_fetch` follows and the specification ascribes to
`fetch_data` as well. -/
theorem sharedSemOf_bounds (cap : ℕ) (l : List ℕ)
    (h : admissible sharedSemOf cap l) : l.length ≤ cap := by
  rcases l with _ | ⟨c, rest⟩
  · simp
  · have hm : (0 : ℕ) ∈ ((c :: rest).map sharedSemOf) := by
      simp [sharedSemOf]
    have := h.2 0 hm
    have hfilter : ((c :: rest).filter (fun x => sharedSemOf x = 0)) = c :: rest := by
      apply List.filter_eq_self.mpr
      intro a _
      simp [sharedSemOf]
    rw [hfilter] at this
    exact this

/-! ## Claims -/

/-- C1: the claim asserts a single permit pool of `CONCURRENT_REQUESTS`
permits shared by all in-flight fetches bounds concurrency. In
`WarframeMarketAnalysys.py` line 55 every `fetch_data` invocation
constructs its own `asyncio.Semaphore(CONCURRENT_REQUESTS)`, so the
snapshot in which six concurrent calls each hold a permit of their own
fresh semaphore violates no semaphore's capacity — six fetches are
admissible past admission control although six exceeds
`CONCURRENT_REQUESTS = 5`. The constant's comment shows bounding the
number of simultaneous requests is the intent, so this is a slip in the
code, not in the claim. -/
theorem C1_semaphore_not_shared :
    admissible fetchDataSemOf CONCURRENT_REQUESTS (List.range 6) ∧
      CONCURRENT_REQUESTS < (List.range 6).length := by
  decide

/-- C2 counterexample: the claim says the next delay after a 429 is
`min(max(d * 2, h), MAX_DELAY)`. At `d = INITIAL_DELAY` and server hint
`h = 5` the code's next delay is `0.2`, not the claimed `5` — the hint
is never read on this path. Moreover at the ceiling `d = MAX_DELAY` a
further 429 makes the next delay `INITIAL_DELAY`, a strict decrease,
so with (constant, hence non-decreasing) hints the successive delays
are not non-decreasing either. -/
theorem C2_counterexample :
    nextDelayVal INITIAL_DELAY = 1 / 5 ∧
    specNextDelay INITIAL_DELAY 5 = 5 ∧
    (1 / 5 : ℚ) ≠ 5 ∧
    nextDelayVal MAX_DELAY = INITIAL_DELAY ∧
    INITIAL_DELAY < MAX_DELAY := by
  refine ⟨?_, ?_, ?_, ?_, ?_⟩ <;>
    norm_num [nextDelayVal, onRateLimited, specNextDelay, INITIAL_DELAY,
      MAX_DELAY, min_def, max_def]

/-- C2 (amended): for every current delay `0 < d < MAX_DELAY`, the next
delay computed after a 429 is `min(d * 2, MAX_DELAY)` — the server hint
plays no role — and while the delay stays below the ceiling the
successive delays are non-decreasing and never exceed `MAX_DELAY`.
(Once the ceiling is hit, a further 429 resets the delay to
`INITIAL_DELAY` after a 60-second pause; see C3.) -/
theorem C2_next_delay_doubles_capped (d : ℚ) (h0 : 0 < d) (hlt : d < MAX_DELAY) :
    nextDelayVal d = min (d * 2) MAX_DELAY ∧
    d ≤ nextDelayVal d ∧ nextDelayVal d ≤ MAX_DELAY := by
  have hval : nextDelayVal d = min (d * 2) MAX_DELAY := by
    unfold nextDelayVal onRateLimited
    rw [if_pos hlt]
  refine ⟨hval, ?_, ?_⟩
  · rw [hval]
    exact le_min (by linarith) (le_of_lt hlt)
  · rw [hval]
    exact min_le_right _ _

/-- C2 witness: the amended statement at the concrete delay `d = 1`. -/
theorem C2_witness :
    nextDelayVal 1 = min (1 * 2) MAX_DELAY ∧
    (1 : ℚ) ≤ nextDelayVal 1 ∧ nextDelayVal 1 ≤ MAX_DELAY :=
  C2_next_delay_doubles_capped 1 (by norm_num) (by norm_num [MAX_DELAY])

/-- C3: once the delay has reached `MAX_DELAY`, a further 429 makes
`fetch_data` sleep the long fixed interval of 60 seconds and retry with
the delay reset to `INITIAL_DELAY`, instead of retrying at the ceiling
delay (`WarframeMarketAnalysys.py` lines 67–70). -/
theorem C3_cooldown_escalation (d : ℚ) (h : MAX_DELAY ≤ d) :
    onRateLimited d = RLAction.cooldownThenRetry 60 INITIAL_DELAY := by
  unfold onRateLimited
  rw [if_neg (not_lt.mpr h)]

/-- C3 witness: the concrete ceiling delay. -/
theorem C3_witness :
    onRateLimited MAX_DELAY = RLAction.cooldownThenRetry 60 INITIAL_DELAY :=
  C3_cooldown_escalation MAX_DELAY le_rfl

/-- C4: a key present in the cache is answered from the cache with zero
`fetch_data` calls and an unchanged cache (line 79–80 of
`WarframeMarketAnalysys.py`), and conversely a call that performed
network I/O was for a key absent from the cache at the start. -/
theorem C4_cache_hit_no_network :
    (∀ (cache : List (String × JVal)) (key : String) (netResp : Option JVal)
        (v : JVal), List.lookup key cache = some v →
      getItemOrders cache key netResp = some ⟨some v, 0, cache⟩) ∧
    (∀ (cache : List (String × JVal)) (key : String) (netResp : Option JVal)
        (g : OrdersCall), getItemOrders cache key netResp = some g →
      1 ≤ g.netCalls → List.lookup key cache = Option.none) := by
  constructor
  · intro cache key netResp v h
    unfold getItemOrders
    rw [h]
  · intro cache key netResp g hg hcalls
    cases hl : List.lookup key cache with
    | none => rfl
    | some v =>
      unfold getItemOrders at hg
      rw [hl] at hg
      cases hg
      exact absurd hcalls (by simp)

/-- C4 witness: a one-entry cache answers its key with the cached
payload, zero network calls, and an unchanged cache; and a call that
made a network call was for an absent key. -/
theorem C4_witness :
    getItemOrders [("ash_prime_set", JVal.arr [])] "ash_prime_set" Option.none
        = some ⟨some (JVal.arr []), 0, [("ash_prime_set", JVal.arr [])]⟩ ∧
    List.lookup "lex_prime" [("ash_prime_set", JVal.arr [])]
        = (Option.none : Option JVal) :=
  ⟨C4_cache_hit_no_network.1 _ _ _ _ rfl,
   C4_cache_hit_no_network.2 [("ash_prime_set", JVal.arr [])] "lex_prime"
     Option.none ⟨Option.none, 1, [("ash_prime_set", JVal.arr [])]⟩ rfl le_rfl⟩

/-- C5 counterexample: under an unbroken sequence of 429 responses,
`fetch_data` never returns, at any attempt budget — no per-call attempt
ceiling exists on this path (each 429 recurses, lines 66 and 70 of
`WarframeMarketAnalysys.py`), so "a single fetch call performs only a
bounded number of attempts before returning" is false. -/
theorem C5_counterexample :
    (∃ fuel, (fetchData all429 fuel 0 INITIAL_DELAY).isSome = true) = False := by
  apply eq_false
  rintro ⟨fuel, h⟩
  rw [fetchData_all429_none fuel 0 INITIAL_DELAY] at h
  exact absurd h (by simp)

/-- C5 (amended): the collector's `fetch_item_data` is bounded by its
per-call ceiling of `retries = 5` attempts for every response sequence,
but the analyser's `fetch_data` has no attempt ceiling: under persistent
429 responses it retries forever and never returns. -/
theorem C5_per_call_bound_collector_only :
    (∀ oracle, (fetchItemData oracle).2 ≤ COLLECTOR_RETRIES) ∧
    (∀ (fuel : ℕ) (d : ℚ), fetchData all429 fuel 0 d = Option.none) := by
  constructor
  · intro oracle
    have h := fetchItemDataAux_attempts_le oracle COLLECTOR_RETRIES 0
      COLLECTOR_INITIAL_DELAY
    simpa [fetchItemData] using h
  · intro fuel d
    exact fetchData_all429_none fuel 0 d

/-- The behaviour of a single task that fails on every invocation. -/
def alwaysFailBeh : ℕ → ℕ → Option ℕ := fun _ _ => Option.none

/-- The behaviour of two tasks: task 0 succeeds in round 0 with
payload 100, task 1 fails. -/
def oneFailBeh : ℕ → ℕ → Option ℕ
  | 0, _ => some 100
  | _, _ => Option.none

/-- C6 counterexample: with a task set consisting of one key that
always fails, the dispatch-and-retry section ends in the crash path:
the first retry dispatch (line 187 of `WarframeMarketAnalysys.py`)
raises `TypeError`, caught by the generic handler on line 207, which
logs only a generic unexpected-error message. The code has no
`MAX_ROUNDS` at all, the key is never reported as permanently failed,
and no output file is written — refuting the claimed bounded-round
permanent-failure report. -/
theorem C6_counterexample :
    mainRun alwaysFailBeh 1 = RunOutcome.crashed := rfl

/-- C6 (amended): given a key for which every fetch attempt fails, the
run does terminate — not by round-bounded reporting, but because the
first retry dispatch raises `TypeError` (its arguments being consumed
coroutines would raise `RuntimeError` regardless), ending the run
through the generic handler with no per-key permanent-failure report;
no `MAX_ROUNDS` exists. In general every run terminates: it either
crashes that way or completes with exactly the successes of round 0. -/
theorem C6_terminates_crash_no_report :
    mainRun alwaysFailBeh 1 = RunOutcome.crashed ∧
    (∀ (beh : ℕ → ℕ → Option ℕ) (total : ℕ),
      mainRun beh total = RunOutcome.crashed ∨
      mainRun beh total = RunOutcome.completed
        (((List.range total).map (fun i => beh i 0)).filterMap id)) := by
  refine ⟨rfl, ?_⟩
  intro beh total
  unfold mainRun
  by_cases h1 : (((List.range total).map (fun i => beh i 0)).filterMap id).length < total
  · rw [if_pos h1]
    by_cases h2 : failedPositions ((List.range total).map (fun i => beh i 0)) = []
    · rw [if_pos h2]
      right
      rfl
    · rw [if_neg h2]
      left
      rfl
  · rw [if_neg h1]
    right
    rfl

/-- C7: in round 0 of `oneFailBeh`, exactly task 1 fails
(`failedPositions` computes `[1]`), so the claim requires task 1 — and
only task 1 — to be re-submitted after the inter-round cooldown, with
task 0 keeping its payload. What the code does instead is crash: the
retry dispatch on line 187 raises `TypeError` before any task is
re-run (and its arguments are consumed coroutines whose re-await would
raise `RuntimeError`; line 186's index misalignment — failure positions
of the current `results` list used as indices into `all_tasks` — lies
further along the same unreachable path), so no task is ever
re-submitted and the run ends through the generic handler with no
output at all. -/
theorem C7_no_resubmission :
    failedPositions ((List.range 2).map (fun i => oneFailBeh i 0)) = [1] ∧
    mainRun oneFailBeh 2 = RunOutcome.crashed :=
  ⟨rfl, rfl⟩

/-- C8 counterexample: in `fetch_item_data`, a `KeyError`/`TypeError`
shape error returns `None` on the very first attempt (line 75 of
`WarframeMarketDataCollector.py`) — it is not retried up to the
5-attempt per-call ceiling — and a server that always answers 429
exhausts the 5 attempts and is surfaced to the caller as the same
terminal `None` failure, so `RateLimited` is not "never surfaced". -/
theorem C8_counterexample :
    fetchItemData (fun _ => AttemptOutcome.shapeError) = (Option.none, 1) ∧
    COLLECTOR_RETRIES = 5 ∧
    fetchItemData (fun _ => AttemptOutcome.rateLimited 1) = (Option.none, 5) := by
  refine ⟨rfl, rfl, rfl⟩

/-- C8 (amended): in the collector, `NetworkFailure` (any
`aiohttp.ClientError`, which includes non-2xx statuses) and
`DecodeFailure` are retried up to the 5-attempt per-call ceiling before
a terminal `None` is returned; a `ProtocolShapeFailure`
(`KeyError`/`TypeError`) returns `None` on first occurrence without
retry; persistent 429s also consume the 5 attempts and surface as the
terminal `None`. In the analyser's `fetch_data`, every non-429 failure
(network, timeout, decode, or non-429 HTTP status) returns `None` on
the first attempt with no retry at all. -/
theorem C8_error_retry_behaviour :
    fetchItemData (fun _ => AttemptOutcome.clientError) = (Option.none, 5) ∧
    fetchItemData (fun _ => AttemptOutcome.decodeError) = (Option.none, 5) ∧
    fetchItemData (fun _ => AttemptOutcome.shapeError) = (Option.none, 1) ∧
    fetchItemData (fun _ => AttemptOutcome.rateLimited 1) = (Option.none, 5) ∧
    (∀ (a : ℕ) (d : ℚ), fetchData (fun _ => Response.netError) 1 a d
        = some Option.none) ∧
    (∀ (a : ℕ) (d : ℚ), fetchData (fun _ => Response.httpError 500) 1 a d
        = some Option.none) := by
  refine ⟨rfl, rfl, rfl, rfl, fun a d => rfl, fun a d => rfl⟩

/-- C9 counterexample: a cache store whose bytes are not valid UTF-8 is
unparseable content, yet loading it raises an uncaught
`UnicodeDecodeError` — `json.load(f)` on the text-mode file decodes
before parsing, and the `except` on line 40 of
`WarframeMarketAnalysys.py` catches only `json.JSONDecodeError`, which
`UnicodeDecodeError` is not a subclass of; the module-level code has no
other handler, so the error is fatal rather than yielding an empty
cache. -/
theorem C9_counterexample : loadCache StoreContent.invalidUtf8 = Option.none := rfl

/-- C9 (amended): the cache is loaded fully into memory at startup; an
absent store, or a store whose text fails JSON parsing
(`json.JSONDecodeError`), yields an empty cache without a fatal error,
and a parsed store is loaded in full — but a store whose bytes are not
valid UTF-8 raises an uncaught fatal `UnicodeDecodeError`. -/
theorem C9_load_tolerates_absent_and_bad_json :
    loadCache StoreContent.absent = some [] ∧
    loadCache StoreContent.notJson = some [] ∧
    (∀ entries, loadCache (StoreContent.parsed entries) = some entries) :=
  ⟨rfl, rfl, fun _ => rfl⟩

/-- The selection rule of `get_online_orders`, expressed with the same
Python membership/subscript/truthiness primitives the loop body uses:
keep an order iff `"user" in order`, `"online" in order["user"]`, and
`order["user"]["online"]` is truthy. -/
def keepOrder (o : JVal) : Bool :=
  match pyContainsKey "user" o with
  | some true =>
    match pySubscript o "user" with
    | some u =>
      match pyContainsKey "online" u with
      | some true =>
        match pySubscript u "online" with
        | some ov => pyTruthy ov
        | Option.none => false
      | _ => false
    | Option.none => false
  | _ => false

/-- An order on which the loop body of `get_online_orders` raises no
`TypeError`: the membership tests and subscripts it reaches all
succeed (e.g. the order is a dict and its `"user"` value, when the
key is present, is a container holding the `"online"` key lookup). -/
def orderSafe (o : JVal) : Bool :=
  match pyContainsKey "user" o with
  | Option.none => false
  | some false => true
  | some true =>
    match pySubscript o "user" with
    | Option.none => false
    | some u =>
      match pyContainsKey "online" u with
      | Option.none => false
      | some false => true
      | some true =>
        match pySubscript u "online" with
        | Option.none => false
        | some _ => true

/-- C10 counterexample: on the single order `{"user": null}` — the
`user` key present but mapped to JSON `null` — the membership test
`"online" in order["user"]` raises `TypeError` (`None` is not a
container), so `get_online_orders` raises instead of skipping the
order, refuting the claim's "for every input ... rather than raising
an error". -/
theorem C10_counterexample :
    getOnlineOrders (some [JVal.obj [("user", JVal.null)]]) = Option.none := rfl

/-- One-step unfolding of the loop on a cons cell. -/
theorem onlineOrdersLoop_cons (o : JVal) (rest : List JVal) :
    onlineOrdersLoop (o :: rest) =
      (match pyContainsKey "user" o with
       | Option.none => Option.none
       | some false => onlineOrdersLoop rest
       | some true =>
         match pySubscript o "user" with
         | Option.none => Option.none
         | some u =>
           match pyContainsKey "online" u with
           | Option.none => Option.none
           | some false => onlineOrdersLoop rest
           | some true =>
             match pySubscript u "online" with
             | Option.none => Option.none
             | some ov =>
               if pyTruthy ov then
                 match onlineOrdersLoop rest with
                 | Option.none => Option.none
                 | some tail => some (o :: tail)
               else onlineOrdersLoop rest) := rfl

/-- C10 (amended): `get_online_orders` returns `[]` on `None`; and on
any list of orders on which the loop's membership tests and subscripts
do not raise (`orderSafe`), it returns exactly the orders whose `user`
field is present, contains an `online` key, and has a truthy online
value, skipping the rest — but an order such as `{"user": null}`
raises `TypeError` instead of being skipped. -/
theorem C10_online_filter :
    getOnlineOrders Option.none = some [] ∧
    ∀ orders : List JVal, (∀ o ∈ orders, orderSafe o = true) →
      getOnlineOrders (some orders) = some (orders.filter keepOrder) := by
  refine ⟨rfl, ?_⟩
  intro orders h
  induction orders with
  | nil => rfl
  | cons o rest ih =>
    have ho : orderSafe o = true := h o (by simp)
    have ihr : onlineOrdersLoop rest = some (rest.filter keepOrder) :=
      ih (fun x hx => h x (by simp [hx]))
    show onlineOrdersLoop (o :: rest) = some ((o :: rest).filter keepOrder)
    rw [List.filter_cons, onlineOrdersLoop_cons]
    unfold orderSafe at ho
    cases h1 : pyContainsKey "user" o with
    | none => simp only [h1] at ho; exact absurd ho (by simp)
    | some b1 =>
      simp only [h1] at ho ⊢
      cases b1 with
      | false =>
        have hk : keepOrder o = false := by simp only [keepOrder, h1]
        rw [ihr, hk]
        simp
      | true =>
        cases h2 : pySubscript o "user" with
        | none => simp only [h2] at ho; exact absurd ho (by simp)
        | some u =>
          simp only [h2] at ho ⊢
          cases h3 : pyContainsKey "online" u with
          | none => simp only [h3] at ho; exact absurd ho (by simp)
          | some b3 =>
            simp only [h3] at ho ⊢
            cases b3 with
            | false =>
              have hk : keepOrder o = false := by
                simp only [keepOrder, h1, h2, h3]
              rw [ihr, hk]
              simp
            | true =>
              cases h4 : pySubscript u "online" with
              | none => simp only [h4] at ho; exact absurd ho (by simp)
              | some ov =>
                simp only [h4] at ho ⊢
                have hk : keepOrder o = pyTruthy ov := by
                  simp only [keepOrder, h1, h2, h3, h4]
                rw [hk]
                cases h5 : pyTruthy ov with
                | false => simp [h5, ihr]
                | true => simp [h5, ihr]

/-- C10 witness: the amended statement on a concrete three-order list —
an online user's order is kept, an order with no `user` key and an
order with a falsy `online` value are skipped. -/
theorem C10_witness :
    getOnlineOrders (some
        [JVal.obj [("user", JVal.obj [("online", JVal.bool true)]),
                   ("platinum", JVal.num 12)],
         JVal.obj [("platinum", JVal.num 7)],
         JVal.obj [("user", JVal.obj [("online", JVal.bool false)])]])
      = some (List.filter keepOrder
        [JVal.obj [("user", JVal.obj [("online", JVal.bool true)]),
                   ("platinum", JVal.num 12)],
         JVal.obj [("platinum", JVal.num 7)],
         JVal.obj [("user", JVal.obj [("online", JVal.bool false)])]]) :=
  C10_online_filter.2 _ (by decide)
